import Mathlib

/-!
Verification of the metaschool repository core: the MSR jumping simulation
environment (`metaschool/envs/msr_jumping.py`) and the task-configuration
registry (`metaschool/base.py`, `metaschool/gym_taskset.py`).

The Python code is shallowly embedded: Python ints become `Int`/`Nat`
(Python integers are arbitrary precision, so no wraparound is modelled),
float color/observation values become `ℚ` (all values involved are exact
dyadic rationals), tensors become functions `Int → Int → ℚ` (raster frames)
or `List ℚ` (feature vectors), and `assert`/`raise` become `Except`.
-/

namespace Metaschool

/-! ## Colors (`DefaultColors` in `msr_jumping.py`) -/

def colorWhite : ℚ := 1
def colorGray : ℚ := 1 / 2
def colorBlack : ℚ := 0

/-! ## Configuration of `MSRJumpEnv.__init__`

One field per constructor argument (tuple arguments are split into their
two components; `vision_observations`, `colors` and `device` keep their
roles, with `colors` fixed to the defaults as in every use in the repo). -/

structure JumpConfig where
  floor_height : Int
  obstacle_position : Int
  obstacle_w : Int
  obstacle_h : Int
  vision_observations : Bool
  screen_width : Int
  screen_height : Int
  jumping_height : Int
  agent_speed : Int
  agent_w : Int
  agent_h : Int
  num_envs : Nat
  max_episode_steps : Nat
deriving DecidableEq

/-- `max_screen_size = max(screen_height, screen_width)` -/
def JumpConfig.max_screen_size (cfg : JumpConfig) : Int :=
  max cfg.screen_height cfg.screen_width

/-- The default constructor arguments of `MSRJumpEnv.__init__`. -/
def defaultJumpConfig : JumpConfig where
  floor_height := 10
  obstacle_position := 20
  obstacle_w := 9
  obstacle_h := 10
  vision_observations := true
  screen_width := 84
  screen_height := 84
  jumping_height := 15
  agent_speed := 1
  agent_w := 5
  agent_h := 10
  num_envs := 1
  max_episode_steps := 600

/-! ## Raster frames

A frame is a grid of rational brightness values, modelled as a function of
the two tensor indices; only indices inside `[0, screen_height) ×
[0, screen_width)` are meaningful.  `frame[a:b, c:d].fill_(v)` becomes
`paintRect`. -/

def Frame : Type := Int → Int → ℚ

/-- In-place fill of the slice `[x0:x1, y0:y1]` with color `c`. -/
def paintRect (f : Frame) (x0 x1 y0 y1 : Int) (c : ℚ) : Frame :=
  fun i j => if x0 ≤ i ∧ i < x1 ∧ y0 ≤ j ∧ j < y1 then c else f i j

/-- The vision branch of `MSRJumpEnv._get_base_observation`: black
background, gray obstacle, white screen outline, white floor line, painted
in source order (later paints overwrite earlier ones). -/
def mkVisionBase (cfg : JumpConfig) : Frame :=
  let f : Frame := fun _ _ => colorBlack
  let f := paintRect f cfg.obstacle_position (cfg.obstacle_position + cfg.obstacle_w)
    cfg.floor_height (cfg.floor_height + cfg.obstacle_h) colorGray
  let f := paintRect f 0 cfg.screen_height 0 1 colorWhite
  let f := paintRect f 0 cfg.screen_height (cfg.screen_width - 1) cfg.screen_width colorWhite
  let f := paintRect f 0 1 0 cfg.screen_width colorWhite
  let f := paintRect f (cfg.screen_height - 1) cfg.screen_height 0 cfg.screen_width colorWhite
  let f := paintRect f 0 cfg.screen_width cfg.floor_height (cfg.floor_height + 1) colorWhite
  f

/-! ## Environment state -/

/-- The cached `_base_observation`: a raster frame in vision mode, a
10-entry feature vector otherwise. -/
inductive BaseObs where
  | vision (f : Frame)
  | features (v : List ℚ)

/-- The mutable attributes of `MSRJumpEnv` (`agent_position`, `jumping`,
`done`, `_steps`, `_base_observation`). -/
structure JumpState where
  agent_x : Int
  agent_y : Int
  jumping : Bool
  jump_dy : Int
  done : Bool
  steps : Nat
  base_observation : BaseObs

/-- The feature branch of `MSRJumpEnv._get_base_observation`. -/
def mkFeatureBase (cfg : JumpConfig) (x y : Int) : List ℚ :=
  [ (x : ℚ) / (cfg.max_screen_size : ℚ),
    (y : ℚ) / (cfg.max_screen_size : ℚ),
    (cfg.agent_w : ℚ) / (cfg.max_screen_size : ℚ),
    (cfg.agent_h : ℚ) / (cfg.max_screen_size : ℚ),
    (cfg.agent_speed : ℚ) / (cfg.max_screen_size : ℚ),
    (cfg.jumping_height : ℚ) / (cfg.max_screen_size : ℚ),
    (cfg.floor_height : ℚ) / (cfg.max_screen_size : ℚ),
    (cfg.obstacle_position : ℚ) / (cfg.max_screen_size : ℚ),
    (cfg.obstacle_w : ℚ) / (cfg.max_screen_size : ℚ),
    (cfg.obstacle_h : ℚ) / (cfg.max_screen_size : ℚ) ]

/-- `MSRJumpEnv._get_base_observation(vision)`, evaluated at the agent
position recorded in `s`. -/
def get_base_observation (cfg : JumpConfig) (s : JumpState) (vision : Bool) : BaseObs :=
  if vision then .vision (mkVisionBase cfg)
  else .features (mkFeatureBase cfg s.agent_x s.agent_y)

/-- `MSRJumpEnv.reset()`: agent at `(0, floor_height)`, not jumping, step
counter zeroed, cached base observation recomputed. -/
def reset (cfg : JumpConfig) : JumpState where
  agent_x := 0
  agent_y := cfg.floor_height
  jumping := false
  jump_dy := 0
  done := false
  steps := 0
  base_observation :=
    get_base_observation cfg
      { agent_x := 0, agent_y := cfg.floor_height, jumping := false, jump_dy := 0,
        done := false, steps := 0, base_observation := .features [] }
      cfg.vision_observations

/-! ## Observations -/

/-- An observation returned to the caller: raster frame (already
transposed, the leading channel dimension is implicit) or feature
vector. -/
inductive Obs where
  | vision (f : Frame)
  | features (v : List ℚ)

/-- `obs.t()` : transpose of the two tensor axes. -/
def transposeFrame (f : Frame) : Frame := fun i j => f j i

/-- `MSRJumpEnv.get_observation(vision)`.  When the requested mode matches
the construction mode, the cached `_base_observation` is cloned, otherwise
a fresh base is computed; then the agent rectangle is painted (vision) or
entries 0 and 1 are overwritten with the scaled agent position
(features). -/
def get_observation (cfg : JumpConfig) (s : JumpState) (vision : Bool) : Obs :=
  if vision then
    let base : Frame :=
      if cfg.vision_observations == vision then
        match s.base_observation with
        | .vision f => f
        | .features _ => mkVisionBase cfg
      else mkVisionBase cfg
    .vision (transposeFrame (paintRect base s.agent_x (s.agent_x + cfg.agent_w)
      s.agent_y (s.agent_y + cfg.agent_h) colorWhite))
  else
    let base : List ℚ :=
      if cfg.vision_observations == vision then
        match s.base_observation with
        | .features v => v
        | .vision _ => mkFeatureBase cfg s.agent_x s.agent_y
      else mkFeatureBase cfg s.agent_x s.agent_y
    .features ((base.set 0 ((s.agent_x : ℚ) / (cfg.max_screen_size : ℚ))).set 1
      ((s.agent_y : ℚ) / (cfg.max_screen_size : ℚ)))

/-! ## Dynamics and step -/

/-- `MSRJumpEnv._step_dynamics(action)`. -/
def step_dynamics (cfg : JumpConfig) (s : JumpState) (action : Nat) : JumpState :=
  let s := if !s.jumping && action == 1 then { s with jumping := true, jump_dy := 1 } else s
  let s := { s with agent_x := s.agent_x + cfg.agent_speed }
  if s.jumping then
    let dy := if s.agent_y > cfg.floor_height + cfg.jumping_height then -1 else s.jump_dy
    let y := s.agent_y + dy * cfg.agent_speed
    let s := { s with jump_dy := dy, agent_y := y }
    if y == cfg.floor_height then { s with jumping := false, jump_dy := 0 } else s
  else s

/-- The `collision` test of `MSRJumpEnv.step`, written as in the source. -/
def collisionB (cfg : JumpConfig) (s : JumpState) : Bool :=
  (cfg.obstacle_position + cfg.obstacle_w > s.agent_x) &&
  (cfg.obstacle_position < s.agent_x + cfg.agent_w) &&
  (cfg.floor_height + cfg.obstacle_h > s.agent_y) &&
  (cfg.floor_height < s.agent_y + cfg.agent_h)

/-- The `exited` test of `MSRJumpEnv.step`, written as in the source. -/
def exitedB (cfg : JumpConfig) (s : JumpState) : Bool :=
  cfg.screen_width < s.agent_x + cfg.agent_w

/-- The `timelimit` test of `MSRJumpEnv.step` (pre-increment counter). -/
def timelimitB (cfg : JumpConfig) (steps : Nat) : Bool :=
  steps > cfg.max_episode_steps

/-- Result of one `step` call: `(observation, reward, done, info=None)`
plus the successor state of the environment object. -/
structure StepResult where
  state : JumpState
  observation : Obs
  reward : Int
  done : Bool

/-- `MSRJumpEnv.step(action)`: dynamics, termination decision, reward,
observation, then the step-counter increment. -/
def step (cfg : JumpConfig) (s : JumpState) (action : Nat) : StepResult :=
  let s1 := step_dynamics cfg s action
  let timelimit := timelimitB cfg s1.steps
  let collision := collisionB cfg s1
  let exited := exitedB cfg s1
  let done := timelimit || collision || exited
  let reward : Int :=
    if collision then -1
    else if exited then cfg.agent_speed + 1
    else cfg.agent_speed
  let observation := get_observation cfg s1 cfg.vision_observations
  { state := { s1 with steps := s1.steps + 1 },
    observation := observation, reward := reward, done := done }

/-! ## Construction (`MSRJumpEnv.__init__`) -/

def unsolvableMsg : String := "Task unsolvable: increase jumping height."
def multiEnvMsg : String := "Multiple envs not supported, yet."

/-- The two `assert`s of `__init__`, then the `reset()` it performs. -/
def init (cfg : JumpConfig) : Except String JumpState :=
  if cfg.jumping_height + 1 ≥ cfg.agent_w + cfg.obstacle_w then
    if cfg.num_envs = 1 then .ok (reset cfg)
    else .error multiEnvMsg
  else .error unsolvableMsg

def exceptIsOk {ε α : Type} : Except ε α → Bool
  | .ok _ => true
  | .error _ => false

/-! ## Render -/

/-- Outcome of `MSRJumpEnv.render(mode)`: an exception, a returned frame,
or Python's implicit `return None` when no branch matches. -/
inductive RenderResult where
  | raisesNotImplemented
  | frame (f : Frame)
  | returnsNone

/-- `MSRJumpEnv.render(mode)`. -/
def render (cfg : JumpConfig) (s : JumpState) (mode : String) : RenderResult :=
  if mode == "text" then .raisesNotImplemented
  else if mode == "human" then .raisesNotImplemented
  else if mode == "rgb_array" then
    match get_observation cfg s true with
    | .vision f => .frame (fun i j => f i j * 255)
    | .features _ => .returnsNone
  else .returnsNone

/-! ## Optimal action and closed-loop runs -/

/-- `MSRJumpEnv.get_optimal_action()`.  Note the source computes
`jump_margin` from the agent width and the obstacle *height*
(`obstacle_size[1]`). -/
def get_optimal_action (cfg : JumpConfig) (s : JumpState) : Nat :=
  let dist_to_obstacle : Int := (cfg.obstacle_position - s.agent_x).natAbs
  let jump_margin : Int := cfg.agent_w + cfg.obstacle_h
  if dist_to_obstacle ≤ jump_margin - 1 then 1 else 0

/-- Summary of a closed-loop episode: cumulative reward, number of `step`
calls, the termination flags observed on the last call, and whether the
loop observed `done = True` within the given fuel. -/
structure RunResult where
  reward : Int
  steps : Nat
  collision : Bool
  exited : Bool
  timelimit : Bool
  finished : Bool
deriving DecidableEq

/-- Drive `step` with `get_optimal_action()` at every step until
`done = True` (the loop of the module's `__main__` block), summing
rewards. -/
def runOptimal (cfg : JumpConfig) : Nat → JumpState → RunResult
  | 0, _ => { reward := 0, steps := 0, collision := false, exited := false,
              timelimit := false, finished := false }
  | fuel + 1, s =>
    let a := get_optimal_action cfg s
    let r := step cfg s a
    if r.done then
      { reward := r.reward, steps := 1,
        collision := collisionB cfg (step_dynamics cfg s a),
        exited := exitedB cfg (step_dynamics cfg s a),
        timelimit := timelimitB cfg s.steps,
        finished := true }
    else
      let rest := runOptimal cfg fuel r.state
      { rest with reward := r.reward + rest.reward, steps := rest.steps + 1 }

/-! ## Spec-side predicates for the termination decision

These restate, word for word, the claimed termination and reward
conditions; the theorems below compare them with what `step` computes. -/

/-- Strict axis-aligned box overlap between agent and obstacle, as the
specification states it. -/
def SpecCollision (cfg : JumpConfig) (s : JumpState) : Prop :=
  cfg.obstacle_position + cfg.obstacle_w > s.agent_x ∧
  cfg.obstacle_position < s.agent_x + cfg.agent_w ∧
  cfg.floor_height + cfg.obstacle_h > s.agent_y ∧
  cfg.floor_height < s.agent_y + cfg.agent_h

/-- The agent's right edge passes the screen's right edge. -/
def SpecExit (cfg : JumpConfig) (s : JumpState) : Prop :=
  s.agent_x + cfg.agent_w > cfg.screen_width

/-- The step counter exceeds the maximum number of episode steps. -/
def SpecTimeout (cfg : JumpConfig) (steps : Nat) : Prop :=
  steps > cfg.max_episode_steps

/-! ## Iterated episodes -/

/-- The environment state after `k` calls to `step`, starting from
`reset()`, where call `j` (0-based) takes action `acts j`. -/
def iterSteps (cfg : JumpConfig) (acts : Nat → Nat) : Nat → JumpState
  | 0 => reset cfg
  | k + 1 => (step cfg (iterSteps cfg acts k) (acts k)).state

/-! ## Concrete configurations used by the claims -/

/-- `jump_height=5, agent_width=5, obstacle_width=5` (other arguments at
their defaults). -/
def cfgJump5 : JumpConfig :=
  { defaultJumpConfig with jumping_height := 5, agent_w := 5, obstacle_w := 5 }

/-- `jump_height=9, agent_width=5, obstacle_width=5`. -/
def cfgJump9 : JumpConfig :=
  { defaultJumpConfig with jumping_height := 9, agent_w := 5, obstacle_w := 5 }

/-- A configuration accepted by construction (`5 + 1 ≥ 5 + 1`) whose
obstacle is one cell wide but 20 cells tall: the jump apex
(`floor + jumping_height + 1 = 16`) never clears the obstacle top
(`floor + 20 = 30`). -/
def cfgTallObstacle : JumpConfig :=
  { defaultJumpConfig with
    obstacle_w := 1, obstacle_h := 20, jumping_height := 5, vision_observations := false }

/-- The configuration of the class docstring example
(`screen 64×64, obstacle_position=25, agent_speed=2`). -/
def cfgDocExample : JumpConfig :=
  { defaultJumpConfig with
    screen_width := 64, screen_height := 64, obstacle_position := 25, agent_speed := 2 }

/-- One member of the verified family of configurations for the amended
optimal-policy claim. -/
def c1GridCfg (op jh sp : Int) : JumpConfig :=
  { defaultJumpConfig with
    obstacle_position := op, jumping_height := jh, agent_speed := sp, vision_observations := false }

/-- The verified family: obstacle `(9,10)`, agent `(5,10)`, floor 10,
screen 84×84, every obstacle position 15–40, jumping height 15, 17 or
20, speed 1–2; plus the documented example configuration and the default
configuration. -/
def c1Grid : List JumpConfig :=
  (((List.range 26).map (fun k => (15 + k : Int))).flatMap fun op =>
    (([15, 17, 20] : List Int)).flatMap fun jh =>
      [1, 2].map fun sp => c1GridCfg op jh sp) ++
  [cfgDocExample, defaultJumpConfig]

/-- The behaviour the optimal-policy claim demands of a closed-loop
episode: the loop observes `done = True` within the fuel, on a step whose
exit test holds and whose collision and timeout tests do not, and the
cumulative reward is `steps_to_exit × agent_speed + (agent_speed + 1)`
(with `steps_to_exit` the number of calls before the exit call). -/
def c1RunOk (cfg : JumpConfig) : Bool :=
  let r := runOptimal cfg 700 (reset cfg)
  r.finished && r.exited && !r.collision && !r.timelimit &&
  (r.reward == ((r.steps : Int) - 1) * cfg.agent_speed + (cfg.agent_speed + 1))

/-- A short-horizon configuration for exercising the timeout boundary. -/
def cfgShortTimeout : JumpConfig :=
  { defaultJumpConfig with max_episode_steps := 3, vision_observations := false }

/-! ## The task registry (`base.py` and `gym_taskset.py`)

Environments are modelled as pairs `(baseId, payload)`: `baseId` plays the
role of `id(env.unwrapped)` (gym wrappers keep `.unwrapped` pointing at
the base object, so wrapping preserves it), `payload` the rest of the
object.  Fresh object identities come from an allocation counter threaded
through the registry state.  Factory randomness is abstracted as
arbitrary functions supplied as parameters: `envSample` maps the number
of previous draws to the drawn config, and each wrapper's `sample` may
inspect the environment built so far, exactly as in the source. -/

/-- A `WrapperFactory`: its `sample(env)` and `wrap(env, config)`
methods.  `wrapF` returns the new payload; the base identity is
preserved by wrapping. -/
structure WrapperFactoryM (C V : Type) where
  sampleF : Nat × V → C
  wrapF : Nat × V → C → V

/-- The factories a `GymTaskset` is built from: the env factory's
`sample` and `make`, and the ordered list of wrapper factories. -/
structure TasksetFactories (C V : Type) where
  envSample : Nat → C
  envMake : C → V
  wrappers : List (WrapperFactoryM C V)

/-- The mutable state of a `GymTaskset`: `_env_to_config` (a dict from
base identity to config index), `_all_configs`, and the identity
allocator. -/
structure TasksetState (C : Type) where
  envToConfig : List (Nat × Nat)
  allConfigs : List (List C)
  nextId : Nat
deriving DecidableEq

/-- The state of a freshly constructed `GymTaskset`. -/
def initTaskset {C : Type} : TasksetState C :=
  { envToConfig := [], allConfigs := [], nextId := 0 }

/-- Dict lookup `m[k]`. -/
def lookupId : List (Nat × Nat) → Nat → Option Nat
  | [], _ => none
  | (a, b) :: rest, k => if a = k then some b else lookupId rest k

/-- Dict assignment `m[k] = v`. -/
def setId : List (Nat × Nat) → Nat → Nat → List (Nat × Nat)
  | [], k, v => [(k, v)]
  | (a, b) :: rest, k, v =>
    if a = k then (k, v) :: rest else (a, b) :: setId rest k v

/-- The wrapper loop of `GymTaskset.sample`: for each wrapper factory in
order, sample its config on the environment wrapped so far, wrap, and
collect the config.  Returns the final environment and the collected
wrapper configs in order. -/
def applyWrappers {C V : Type} :
    List (WrapperFactoryM C V) → Nat × V → (Nat × V) × List C
  | [], env => (env, [])
  | w :: rest, env =>
    let c := w.sampleF env
    let env1 : Nat × V := (env.1, w.wrapF env c)
    let r := applyWrappers rest env1
    (r.1, c :: r.2)

/-- `GymTaskset.sample()`: draw an env config, make the base environment
(allocating a fresh identity), sample and apply each wrapper, record the
configuration tuple indexed by the base identity, return the wrapped
environment. -/
def ts_sample {C V : Type} (F : TasksetFactories C V) (st : TasksetState C) :
    TasksetState C × (Nat × V) :=
  let env_config := F.envSample st.allConfigs.length
  let base : Nat × V := (st.nextId, F.envMake env_config)
  let r := applyWrappers F.wrappers base
  let env := r.1
  let configs := env_config :: r.2
  ({ envToConfig := setId st.envToConfig env.1 st.allConfigs.length,
     allConfigs := st.allConfigs ++ [configs],
     nextId := st.nextId + 1 }, env)

/-- `GymTaskset.__getitem__(index)`: rebuild a fresh environment from the
stored configuration tuple, zipping the stored wrapper configs with the
wrapper factories.  `none` models the `IndexError` of an out-of-range
index (or an impossible empty tuple). -/
def ts_getitem {C V : Type} (F : TasksetFactories C V) (st : TasksetState C)
    (i : Nat) : Option ((Nat × V) × TasksetState C) :=
  match st.allConfigs[i]? with
  | none => none
  | some configs =>
    match configs with
    | [] => none
    | c0 :: rest =>
      let env : Nat × V := (st.nextId, F.envMake c0)
      let envF := (rest.zip F.wrappers).foldl
        (fun (e : Nat × V) (p : C × WrapperFactoryM C V) => (e.1, p.2.wrapF e p.1)) env
      some (envF, { st with nextId := st.nextId + 1 })

def notFoundMsg : String := "Env config not found in list of previous configs."
def indexErrorMsg : String := "IndexError"

/-- `GymTaskset.make_like(env)`: resolve the base identity, fail with the
not-found error on a miss, otherwise rebuild through `__getitem__`. -/
def ts_make_like {C V : Type} (F : TasksetFactories C V) (st : TasksetState C)
    (env : Nat × V) : Except String ((Nat × V) × TasksetState C) :=
  match lookupId st.envToConfig env.1 with
  | none => .error notFoundMsg
  | some idx =>
    match ts_getitem F st idx with
    | none => .error indexErrorMsg
    | some r => .ok r

/-- `len(taskset)`. -/
def ts_len {C : Type} (st : TasksetState C) : Nat :=
  st.allConfigs.length

/-- Rebuilding an environment from a stored configuration tuple with a
given fresh identity (the body of `__getitem__` after the index lookup):
make the base from the tuple's head, then re-apply the wrapper factories
in order, pairing them position-wise with the tuple's tail. -/
def rebuildFromTuple {C V : Type} (F : TasksetFactories C V) (freshId : Nat) :
    List C → Option (Nat × V)
  | [] => none
  | c0 :: rest =>
    some ((rest.zip F.wrappers).foldl
      (fun (e : Nat × V) (p : C × WrapperFactoryM C V) => (e.1, p.2.wrapF e p.1)) (freshId, F.envMake c0))

/-- Spec-side description of the sampled wrapper configs: position `i`
holds the config drawn by wrapper factory `i` on the environment wrapped
by the factories before it. -/
def chainedConfigs {C V : Type} :
    List (WrapperFactoryM C V) → Nat × V → List C
  | [], _ => []
  | w :: rest, env =>
    w.sampleF env :: chainedConfigs rest (env.1, w.wrapF env (w.sampleF env))

/-- An operation performed on a `GymTaskset` by a caller. -/
inductive TsOp (C V : Type) where
  | sampleOp
  | makeLikeOp (env : Nat × V)
  | getItemOp (i : Nat)

/-- The number of `sample()` calls in a sequence of operations. -/
def countSamples {C V : Type} : List (TsOp C V) → Nat
  | [] => 0
  | .sampleOp :: rest => countSamples rest + 1
  | .makeLikeOp _ :: rest => countSamples rest
  | .getItemOp _ :: rest => countSamples rest

/-- Run a sequence of registry operations, threading the state and
accumulating the environments returned by `sample()` in order. -/
def runOps {C V : Type} (F : TasksetFactories C V) :
    TasksetState C → List (Nat × V) → List (TsOp C V) →
    TasksetState C × List (Nat × V)
  | st, acc, [] => (st, acc)
  | st, acc, .sampleOp :: rest =>
    let r := ts_sample F st
    runOps F r.1 (acc ++ [r.2]) rest
  | st, acc, .makeLikeOp env :: rest =>
    (match ts_make_like F st env with
     | .ok r => runOps F r.2 acc rest
     | .error _ => runOps F st acc rest)
  | st, acc, .getItemOp i :: rest =>
    (match ts_getitem F st i with
     | some r => runOps F r.2 acc rest
     | none => runOps F st acc rest)

/-- The registry state after running `ops` on a fresh `GymTaskset`. -/
def runState {C V : Type} (F : TasksetFactories C V) (ops : List (TsOp C V)) :
    TasksetState C :=
  (runOps F initTaskset [] ops).1

/-- The environments returned by the `sample()` calls in `ops`, in
order. -/
def runEnvs {C V : Type} (F : TasksetFactories C V) (ops : List (TsOp C V)) :
    List (Nat × V) :=
  (runOps F initTaskset [] ops).2

/-! ## `WrapperFactoryList.wrap` (`base.py`) -/

/-- `WrapperFactoryList.wrap(env, configs)`: fold the position-wise
pairing of wrapper `wrap` functions with configs over the environment. -/
def wrapperListWrap {E C : Type} (ws : List (E → C → E)) (env : E)
    (configs : List C) : E :=
  (ws.zip configs).foldl (fun e p => p.1 e p.2) env

/-- The manual left-to-right chain `env := factory_i.wrap(env, configs[i])`,
stopping at the shorter of the two lists. -/
def manualWrapChain {E C : Type} : List (E → C → E) → E → List C → E
  | w :: ws, env, c :: cs => manualWrapChain ws (w env c) cs
  | _, env, _ => env

/-- The frame produced by `get_observation(vision=True)`: the agent
rectangle painted on the vision base (the cached one when in vision mode,
a recomputed one otherwise), then transposed. -/
def visionObsFrame (cfg : JumpConfig) (s : JumpState) : Frame :=
  transposeFrame (paintRect
    (if cfg.vision_observations then
      (match s.base_observation with
       | .vision f => f
       | .features _ => mkVisionBase cfg)
     else mkVisionBase cfg)
    s.agent_x (s.agent_x + cfg.agent_w) s.agent_y (s.agent_y + cfg.agent_h)
    colorWhite)

instance (cfg : JumpConfig) (s : JumpState) : Decidable (SpecCollision cfg s) := by
  unfold SpecCollision; infer_instance

instance (cfg : JumpConfig) (s : JumpState) : Decidable (SpecExit cfg s) := by
  unfold SpecExit; infer_instance

instance (cfg : JumpConfig) (steps : Nat) : Decidable (SpecTimeout cfg steps) := by
  unfold SpecTimeout; infer_instance

/-- The invariant tying a reachable registry state to the list of
environments its `sample()` calls returned: lengths agree, the `k`-th
sampled environment's base identity resolves to index `k` and is older
than the allocator, every recorded index is in range of the history,
recorded tuples are never empty, and the recorded identities are exactly
the sampled base identities. -/
def TsInv {C V : Type} (st : TasksetState C) (envs : List (Nat × V)) : Prop :=
  envs.length = st.allConfigs.length ∧
  (∀ (k : Nat) (e : Nat × V), envs[k]? = some e →
    lookupId st.envToConfig e.1 = some k ∧ e.1 < st.nextId) ∧
  (∀ p : Nat × Nat, p ∈ st.envToConfig →
    p.2 < st.allConfigs.length ∧ p.1 < st.nextId) ∧
  (∀ t : List C, t ∈ st.allConfigs → t ≠ []) ∧
  (∀ n : Nat, (∃ i, lookupId st.envToConfig n = some i) ↔
    n ∈ envs.map Prod.fst)

/-- A concrete wrapper factory over `C = V = Nat` used to instantiate the
registry theorems. -/
def natWrapper : WrapperFactoryM Nat Nat :=
  { sampleF := fun e => e.2 + 1, wrapF := fun e c => e.2 + c }

/-- Concrete factories over `C = V = Nat`. -/
def natFactories : TasksetFactories Nat Nat :=
  { envSample := fun n => n, envMake := fun c => c, wrappers := [natWrapper] }

/-- The registry state after one `sample()` on `natFactories`. -/
def natState1 : TasksetState Nat := (ts_sample natFactories initTaskset).1

/-- What `__getitem__(0)` returns on `natState1`. -/
def natGetItem0 : (Nat × Nat) × TasksetState Nat :=
  (((1 : Nat), (1 : Nat)),
   { envToConfig := [(0, 0)], allConfigs := [[0, 1]], nextId := 2 })

/-! # Theorems -/

/-! ## Basic facts about the dynamics and `step` -/

/-- `_step_dynamics` touches only the agent position and the jump state:
the step counter, `done` flag and cached base observation pass through. -/
theorem step_dynamics_fields (cfg : JumpConfig) (s : JumpState) (a : Nat) :
    (step_dynamics cfg s a).steps = s.steps ∧
    (step_dynamics cfg s a).done = s.done ∧
    (step_dynamics cfg s a).base_observation = s.base_observation := by
  unfold step_dynamics
  dsimp only
  split <;> (try split) <;> (try split) <;> (try split) <;> simp

theorem step_state_steps (cfg : JumpConfig) (s : JumpState) (a : Nat) :
    (step cfg s a).state.steps = s.steps + 1 := by
  have h : (step cfg s a).state.steps = (step_dynamics cfg s a).steps + 1 := rfl
  rw [h, (step_dynamics_fields cfg s a).1]

theorem step_state_base_observation (cfg : JumpConfig) (s : JumpState) (a : Nat) :
    (step cfg s a).state.base_observation = s.base_observation := by
  have h : (step cfg s a).state.base_observation =
      (step_dynamics cfg s a).base_observation := rfl
  rw [h, (step_dynamics_fields cfg s a).2.2]

theorem step_done_eq (cfg : JumpConfig) (s : JumpState) (a : Nat) :
    (step cfg s a).done =
      (timelimitB cfg (step_dynamics cfg s a).steps ||
       collisionB cfg (step_dynamics cfg s a) ||
       exitedB cfg (step_dynamics cfg s a)) := rfl

theorem step_reward_eq (cfg : JumpConfig) (s : JumpState) (a : Nat) :
    (step cfg s a).reward =
      (if collisionB cfg (step_dynamics cfg s a) then (-1 : Int)
       else if exitedB cfg (step_dynamics cfg s a) then cfg.agent_speed + 1
       else cfg.agent_speed) := rfl

theorem iterSteps_steps (cfg : JumpConfig) (acts : Nat → Nat) (k : Nat) :
    (iterSteps cfg acts k).steps = k := by
  induction k with
  | zero => rfl
  | succ k ih => rw [iterSteps, step_state_steps, ih]

theorem iterSteps_base_observation (cfg : JumpConfig) (acts : Nat → Nat) (k : Nat) :
    (iterSteps cfg acts k).base_observation = (reset cfg).base_observation := by
  induction k with
  | zero => rfl
  | succ k ih => rw [iterSteps, step_state_base_observation, ih]

theorem reset_base_observation (cfg : JumpConfig) :
    (reset cfg).base_observation =
      (if cfg.vision_observations then BaseObs.vision (mkVisionBase cfg)
       else BaseObs.features (mkFeatureBase cfg 0 cfg.floor_height)) := by
  cases h : cfg.vision_observations <;>
    simp [reset, get_base_observation, h]

/-! ## Code tests versus spec predicates -/

theorem collisionB_iff (cfg : JumpConfig) (s : JumpState) :
    collisionB cfg s = true ↔ SpecCollision cfg s := by
  simp [collisionB, SpecCollision, and_assoc]

theorem exitedB_iff (cfg : JumpConfig) (s : JumpState) :
    exitedB cfg s = true ↔ SpecExit cfg s := by
  simp [exitedB, SpecExit]

theorem timelimitB_iff (cfg : JumpConfig) (steps : Nat) :
    timelimitB cfg steps = true ↔ SpecTimeout cfg steps := by
  simp [timelimitB, SpecTimeout]

/-- C2: for every state and action, `step(action)` returns
`done = (timeout ∨ collision ∨ exit)`, where timeout compares the
pre-increment step counter with `max_episode_steps`, collision is strict
box overlap of agent and obstacle on both axes, and exit is the agent's
right edge passing the screen's right edge; the reward is `-1.0` on
collision, `agent_speed + 1.0` on exit without collision, and
`agent_speed` otherwise. -/
theorem claim_C2 (cfg : JumpConfig) (s : JumpState) (a : Nat) :
    ((step cfg s a).done = true ↔
      (SpecTimeout cfg s.steps ∨ SpecCollision cfg (step_dynamics cfg s a) ∨
       SpecExit cfg (step_dynamics cfg s a))) ∧
    (step cfg s a).reward =
      (if SpecCollision cfg (step_dynamics cfg s a) then (-1 : Int)
       else if SpecExit cfg (step_dynamics cfg s a) then cfg.agent_speed + 1
       else cfg.agent_speed) := by
  constructor
  · rw [step_done_eq, (step_dynamics_fields cfg s a).1]
    simp [Bool.or_eq_true, collisionB_iff, exitedB_iff, timelimitB_iff, or_assoc]
  · rw [step_reward_eq]
    by_cases hc : SpecCollision cfg (step_dynamics cfg s a) <;>
      by_cases he : SpecExit cfg (step_dynamics cfg s a) <;>
        simp [collisionB_iff, exitedB_iff, hc, he]

/-- C3: construction fails exactly when
`jumping_height + 1 < agent_width + obstacle_width` or `num_envs ≠ 1`;
in particular it fails for `jump_height=5, agent_width=5,
obstacle_width=5` and succeeds for `jump_height=9` with the same
widths. -/
theorem claim_C3 :
    (∀ cfg : JumpConfig,
      exceptIsOk (init cfg) = true ↔
        (cfg.jumping_height + 1 ≥ cfg.agent_w + cfg.obstacle_w ∧ cfg.num_envs = 1)) ∧
    exceptIsOk (init cfgJump5) = false ∧
    exceptIsOk (init cfgJump9) = true := by
  refine ⟨fun cfg => ?_, by decide, by decide⟩
  unfold init
  split_ifs with h1 h2 <;> simp [exceptIsOk] <;> tauto

/-- C6: the cached raster background is recomputed on `reset()` (to a
value determined by the configuration alone, hence byte-identical across
resets with the same configuration), is never modified by `step()`, and
is therefore identical across all steps of an episode. -/
theorem claim_C6 :
    (∀ (cfg : JumpConfig) (s : JumpState) (a : Nat),
      (step cfg s a).state.base_observation = s.base_observation) ∧
    (∀ cfg : JumpConfig, (reset cfg).base_observation =
      (if cfg.vision_observations then BaseObs.vision (mkVisionBase cfg)
       else BaseObs.features (mkFeatureBase cfg 0 cfg.floor_height))) ∧
    (∀ (cfg : JumpConfig) (acts : Nat → Nat) (k : Nat),
      (iterSteps cfg acts k).base_observation = (reset cfg).base_observation) :=
  ⟨step_state_base_observation, reset_base_observation, iterSteps_base_observation⟩

/-- C7: in feature mode, the observation after any number of steps of any
episode is exactly the `mkFeatureBase` vector at the current agent
position: entries 2–9 (agent width, agent height, agent speed, jump
height, floor height, obstacle x, obstacle width, obstacle height, each
divided by `max(screen_height, screen_width)`) depend only on the
configuration, and only entries 0 and 1 (scaled agent x and y) vary. -/
theorem claim_C7 (cfg : JumpConfig) (acts : Nat → Nat) (k : Nat)
    (hv : cfg.vision_observations = false) :
    get_observation cfg (iterSteps cfg acts k) cfg.vision_observations =
      Obs.features (mkFeatureBase cfg (iterSteps cfg acts k).agent_x
        (iterSteps cfg acts k).agent_y) := by
  have hb := iterSteps_base_observation cfg acts k
  rw [reset_base_observation cfg, hv] at hb
  simp only [Bool.false_eq_true, if_false] at hb
  simp [get_observation, hv, hb, mkFeatureBase]

/-- Witness for C7 at a concrete feature-mode configuration, one step
into an episode. -/
theorem claim_C7_witness :
    get_observation cfgShortTimeout
      (iterSteps cfgShortTimeout (fun _ => 0) 1) cfgShortTimeout.vision_observations =
      Obs.features (mkFeatureBase cfgShortTimeout
        (iterSteps cfgShortTimeout (fun _ => 0) 1).agent_x
        (iterSteps cfgShortTimeout (fun _ => 0) 1).agent_y) :=
  claim_C7 cfgShortTimeout (fun _ => 0) 1 rfl

/-- C10: the step counter is incremented after the termination check and
the timeout test is strict on the pre-increment counter; so if neither
collision nor exit ever occurs, the first `max_episode_steps + 1` calls
return `done = False` and call number `max_episode_steps + 2` (0-based
call `max_episode_steps + 1`) is the first with `done = True`. -/
theorem claim_C10 (cfg : JumpConfig) (acts : Nat → Nat)
    (hnc : ∀ j, j < cfg.max_episode_steps + 2 →
      collisionB cfg (step_dynamics cfg (iterSteps cfg acts j) (acts j)) = false ∧
      exitedB cfg (step_dynamics cfg (iterSteps cfg acts j) (acts j)) = false) :
    (∀ j, j < cfg.max_episode_steps + 1 →
      (step cfg (iterSteps cfg acts j) (acts j)).done = false) ∧
    (step cfg (iterSteps cfg acts (cfg.max_episode_steps + 1))
       (acts (cfg.max_episode_steps + 1))).done = true := by
  constructor
  · intro j hj
    obtain ⟨hc, he⟩ := hnc j (by omega)
    rw [step_done_eq, (step_dynamics_fields _ _ _).1, iterSteps_steps, hc, he]
    simp [timelimitB]
    omega
  · obtain ⟨hc, he⟩ := hnc (cfg.max_episode_steps + 1) (by omega)
    rw [step_done_eq, (step_dynamics_fields _ _ _).1, iterSteps_steps, hc, he]
    simp [timelimitB]

/-- Witness for C10: horizon 3, all no-op actions; calls 0–3 return
`done = False`, call 4 (the 5th = `max_episode_steps + 2`-nd call)
returns `done = True`. -/
theorem claim_C10_witness :
    (∀ j, j < cfgShortTimeout.max_episode_steps + 2 →
      collisionB cfgShortTimeout
        (step_dynamics cfgShortTimeout (iterSteps cfgShortTimeout (fun _ => 0) j) 0) = false ∧
      exitedB cfgShortTimeout
        (step_dynamics cfgShortTimeout (iterSteps cfgShortTimeout (fun _ => 0) j) 0) = false) ∧
    ((∀ j, j < cfgShortTimeout.max_episode_steps + 1 →
      (step cfgShortTimeout (iterSteps cfgShortTimeout (fun _ => 0) j) 0).done = false) ∧
     (step cfgShortTimeout
       (iterSteps cfgShortTimeout (fun _ => 0) (cfgShortTimeout.max_episode_steps + 1))
       0).done = true) := by
  have h : ∀ j, j < cfgShortTimeout.max_episode_steps + 2 →
      collisionB cfgShortTimeout
        (step_dynamics cfgShortTimeout (iterSteps cfgShortTimeout (fun _ => 0) j) 0) = false ∧
      exitedB cfgShortTimeout
        (step_dynamics cfgShortTimeout (iterSteps cfgShortTimeout (fun _ => 0) j) 0) = false := by
    decide
  exact ⟨h, claim_C10 cfgShortTimeout (fun _ => 0) h⟩

/-- C1 counterexample: `cfgTallObstacle` satisfies the construction
check (`5 + 1 ≥ 5 + 1`), yet driving with `get_optimal_action()` from
`reset()` terminates in a collision (cumulative reward 14 after 16
steps), not an exit: the construction check constrains only the widths,
while clearing this obstacle would need a jump higher than its height. -/
theorem claim_C1_counterexample :
    exceptIsOk (init cfgTallObstacle) = true ∧
    (runOptimal cfgTallObstacle 700 (reset cfgTallObstacle)).finished = true ∧
    (runOptimal cfgTallObstacle 700 (reset cfgTallObstacle)).collision = true ∧
    (runOptimal cfgTallObstacle 700 (reset cfgTallObstacle)).exited = false ∧
    (runOptimal cfgTallObstacle 700 (reset cfgTallObstacle)).reward = 14 := by
  decide

set_option maxRecDepth 100000 in
set_option maxHeartbeats 4000000 in
/-- C1 (amended): on every configuration of the verified family
`c1Grid` — all accepted by construction, including the documented
example and the defaults — the closed loop driven by
`get_optimal_action()` from `reset()` observes `done = True` on a step
whose exit test holds and whose collision and timeout tests do not, and
the cumulative reward is
`steps_to_exit × agent_speed + (agent_speed + 1)`. -/
theorem claim_C1_amended :
    c1Grid.all (fun cfg => exceptIsOk (init cfg) && c1RunOk cfg) = true := by
  decide

/-! ## Render -/

theorem paintRect_range (f : Frame) (x0 x1 y0 y1 : Int) (c : ℚ)
    (hf : ∀ i j, 0 ≤ f i j ∧ f i j ≤ 1) (hc : 0 ≤ c ∧ c ≤ 1) :
    ∀ i j, 0 ≤ paintRect f x0 x1 y0 y1 c i j ∧ paintRect f x0 x1 y0 y1 c i j ≤ 1 := by
  intro i j
  unfold paintRect
  split
  · exact hc
  · exact hf i j

theorem mkVisionBase_range (cfg : JumpConfig) :
    ∀ i j, 0 ≤ mkVisionBase cfg i j ∧ mkVisionBase cfg i j ≤ 1 := by
  simp only [mkVisionBase]
  refine paintRect_range _ _ _ _ _ _ ?_ (by norm_num [colorWhite])
  refine paintRect_range _ _ _ _ _ _ ?_ (by norm_num [colorWhite])
  refine paintRect_range _ _ _ _ _ _ ?_ (by norm_num [colorWhite])
  refine paintRect_range _ _ _ _ _ _ ?_ (by norm_num [colorWhite])
  refine paintRect_range _ _ _ _ _ _ ?_ (by norm_num [colorWhite])
  refine paintRect_range _ _ _ _ _ _ ?_ (by norm_num [colorGray])
  intro i j
  norm_num [colorBlack]

/-- `get_observation(vision=True)` always returns a raster frame, namely
the agent rectangle painted over the base frame and transposed. -/
theorem get_observation_true_eq (cfg : JumpConfig) (s : JumpState) :
    get_observation cfg s true = Obs.vision (visionObsFrame cfg s) := by
  unfold get_observation visionObsFrame
  cases h : cfg.vision_observations <;> simp [h]

/-- Along any episode, the frame painted by `get_observation(vision=True)`
has the recomputed-or-cached base equal to `mkVisionBase`. -/
theorem visionObsFrame_iter (cfg : JumpConfig) (acts : Nat → Nat) (k : Nat) :
    visionObsFrame cfg (iterSteps cfg acts k) =
      transposeFrame (paintRect (mkVisionBase cfg)
        (iterSteps cfg acts k).agent_x ((iterSteps cfg acts k).agent_x + cfg.agent_w)
        (iterSteps cfg acts k).agent_y ((iterSteps cfg acts k).agent_y + cfg.agent_h)
        colorWhite) := by
  have hb := iterSteps_base_observation cfg acts k
  rw [reset_base_observation cfg] at hb
  unfold visionObsFrame
  cases h : cfg.vision_observations <;>
    (rw [h] at hb;
     simp only [Bool.false_eq_true, if_false, if_true] at hb ⊢;
     try rw [hb])

/-- C9 counterexample: `render` with the unknown mode `"video"` silently
returns `None` instead of raising a not-supported error. -/
theorem claim_C9_counterexample :
    render defaultJumpConfig (reset defaultJumpConfig) "video" = RenderResult.returnsNone ∧
    render defaultJumpConfig (reset defaultJumpConfig) "video" ≠
      RenderResult.raisesNotImplemented := by
  constructor
  · rfl
  · intro h
    rw [show render defaultJumpConfig (reset defaultJumpConfig) "video" =
        RenderResult.returnsNone from rfl] at h
    exact RenderResult.noConfusion h

/-- C9 (amended): `render` raises NotImplemented exactly for the modes
`"text"` and `"human"`; for `"rgb_array"` it returns the raster
observation frame scaled by 255 (all values within `[0, 255]`); every
other mode silently returns `None`. -/
theorem claim_C9 (cfg : JumpConfig) (acts : Nat → Nat) (k : Nat) (mode : String) :
    (render cfg (iterSteps cfg acts k) mode = RenderResult.raisesNotImplemented ↔
      (mode = "text" ∨ mode = "human")) ∧
    render cfg (iterSteps cfg acts k) "rgb_array" =
      RenderResult.frame (fun i j => visionObsFrame cfg (iterSteps cfg acts k) i j * 255) ∧
    (∀ i j : Int, 0 ≤ visionObsFrame cfg (iterSteps cfg acts k) i j * 255 ∧
      visionObsFrame cfg (iterSteps cfg acts k) i j * 255 ≤ 255) ∧
    (mode ≠ "text" → mode ≠ "human" → mode ≠ "rgb_array" →
      render cfg (iterSteps cfg acts k) mode = RenderResult.returnsNone) := by
  refine ⟨?_, ?_, ?_, ?_⟩
  · by_cases h1 : mode = "text"
    · simp [render, h1]
    · by_cases h2 : mode = "human"
      · simp [render, h1, h2]
      · by_cases h3 : mode = "rgb_array"
        · simp [render, h1, h2, h3, get_observation_true_eq]
        · simp [render, h1, h2, h3]
  · simp [render, get_observation_true_eq]
  · intro i j
    rw [visionObsFrame_iter]
    have hb := paintRect_range (mkVisionBase cfg)
      (iterSteps cfg acts k).agent_x ((iterSteps cfg acts k).agent_x + cfg.agent_w)
      (iterSteps cfg acts k).agent_y ((iterSteps cfg acts k).agent_y + cfg.agent_h)
      colorWhite (mkVisionBase_range cfg) (by norm_num [colorWhite]) j i
    unfold transposeFrame
    constructor
    · nlinarith [hb.1, hb.2]
    · nlinarith [hb.1, hb.2]
  · intro h1 h2 h3
    simp [render, h1, h2, h3]

/-- Witness for C9: on a concrete configuration and the concrete unknown
mode `"foo"`, the amended claim yields a silent `None`. -/
theorem claim_C9_witness :
    render defaultJumpConfig (iterSteps defaultJumpConfig (fun _ => 0) 0) "foo" =
      RenderResult.returnsNone :=
  (claim_C9 defaultJumpConfig (fun _ => 0) 0 "foo").2.2.2
    (by decide) (by decide) (by decide)

/-! ## `WrapperFactoryList.wrap` -/

theorem wrapperListWrap_eq_manual {E C : Type} (ws : List (E → C → E)) :
    ∀ (env : E) (configs : List C),
      wrapperListWrap ws env configs = manualWrapChain ws env configs := by
  induction ws with
  | nil => intro env configs; cases configs <;> rfl
  | cons w ws ih =>
    intro env configs
    cases configs with
    | nil => rfl
    | cons c cs => exact ih (w env c) cs

theorem wrapperListWrap_truncates {E C : Type} (ws : List (E → C → E)) :
    ∀ (env : E) (configs : List C),
      wrapperListWrap ws env configs =
        wrapperListWrap (ws.take (min ws.length configs.length)) env
          (configs.take (min ws.length configs.length)) := by
  induction ws with
  | nil => intro env configs; simp [wrapperListWrap]
  | cons w ws ih =>
    intro env configs
    cases configs with
    | nil => rfl
    | cons c cs =>
      simp only [List.length_cons, Nat.succ_min_succ, List.take_succ_cons]
      exact ih (w env c) cs

/-- C8: `WrapperFactoryList.wrap` equals the manual left-to-right chain
of the wrapper factories' `wrap` calls, and on mismatched lengths it
pairs position-wise and truncates to the shorter sequence (zip
semantics) without error. -/
theorem claim_C8 (E C : Type) (ws : List (E → C → E)) (env : E) (configs : List C) :
    wrapperListWrap ws env configs = manualWrapChain ws env configs ∧
    wrapperListWrap ws env configs =
      wrapperListWrap (ws.take (min ws.length configs.length)) env
        (configs.take (min ws.length configs.length)) :=
  ⟨wrapperListWrap_eq_manual ws env configs, wrapperListWrap_truncates ws env configs⟩

/-! ## Registry lemmas -/

theorem applyWrappers_fst (C V : Type) (ws : List (WrapperFactoryM C V)) :
    ∀ env : Nat × V, (applyWrappers ws env).1.1 = env.1 := by
  induction ws with
  | nil => intro env; rfl
  | cons w ws ih =>
    intro env
    exact ih (env.1, w.wrapF env (w.sampleF env))

theorem applyWrappers_snd (C V : Type) (ws : List (WrapperFactoryM C V)) :
    ∀ env : Nat × V, (applyWrappers ws env).2 = chainedConfigs ws env := by
  induction ws with
  | nil => intro env; rfl
  | cons w ws ih =>
    intro env
    show w.sampleF env ::
        (applyWrappers ws (env.1, w.wrapF env (w.sampleF env))).2 =
      w.sampleF env :: chainedConfigs ws (env.1, w.wrapF env (w.sampleF env))
    rw [ih]

theorem chainedConfigs_length (C V : Type) (ws : List (WrapperFactoryM C V)) :
    ∀ env : Nat × V, (chainedConfigs ws env).length = ws.length := by
  induction ws with
  | nil => intro env; rfl
  | cons w ws ih => intro env; simp [chainedConfigs, ih]

theorem lookupId_setId_self (m : List (Nat × Nat)) (k v : Nat) :
    lookupId (setId m k v) k = some v := by
  induction m with
  | nil => simp [setId, lookupId]
  | cons p m ih =>
    obtain ⟨a, b⟩ := p
    by_cases h : a = k <;> simp [setId, lookupId, h, ih]

theorem lookupId_setId_ne (m : List (Nat × Nat)) (k v k' : Nat) (h : k' ≠ k) :
    lookupId (setId m k v) k' = lookupId m k' := by
  induction m with
  | nil =>
    simp only [setId, lookupId]
    rw [if_neg (fun hh => h hh.symm)]
  | cons p m ih =>
    obtain ⟨a, b⟩ := p
    by_cases ha : a = k
    · subst ha
      simp only [setId, if_pos rfl, lookupId]
      rw [if_neg (fun hh => h hh.symm), if_neg (fun hh => h hh.symm)]
    · simp only [setId, if_neg ha, lookupId, ih]

theorem lookupId_mem (m : List (Nat × Nat)) (k i : Nat)
    (h : lookupId m k = some i) : (k, i) ∈ m := by
  induction m with
  | nil => simp [lookupId] at h
  | cons p m ih =>
    obtain ⟨a, b⟩ := p
    by_cases ha : a = k
    · subst ha
      simp only [lookupId, if_true, eq_self_iff_true, Option.some.injEq] at h
      subst h
      exact List.mem_cons_self _ _
    · simp only [lookupId, if_neg ha] at h
      exact List.mem_cons_of_mem _ (ih h)

theorem setId_mem (m : List (Nat × Nat)) (k v : Nat) :
    ∀ p ∈ setId m k v, p = (k, v) ∨ p ∈ m := by
  induction m with
  | nil => simp [setId]
  | cons q m ih =>
    obtain ⟨a, b⟩ := q
    by_cases ha : a = k
    · subst ha
      intro p hp
      simp only [setId, if_pos rfl] at hp
      rcases List.mem_cons.mp hp with h1 | h2
      · exact Or.inl h1
      · exact Or.inr (List.mem_cons_of_mem _ h2)
    · intro p hp
      simp only [setId, if_neg ha] at hp
      rcases List.mem_cons.mp hp with h1 | h2
      · exact Or.inr (h1 ▸ List.mem_cons_self _ _)
      · rcases ih p h2 with h3 | h4
        · exact Or.inl h3
        · exact Or.inr (List.mem_cons_of_mem _ h4)

theorem ts_getitem_state (C V : Type) (F : TasksetFactories C V)
    (st : TasksetState C) (i : Nat) (r : (Nat × V) × TasksetState C)
    (h : ts_getitem F st i = some r) :
    r.2 = { st with nextId := st.nextId + 1 } := by
  unfold ts_getitem at h
  cases hc : st.allConfigs[i]? with
  | none => rw [hc] at h; cases h
  | some t =>
    rw [hc] at h
    cases t with
    | nil => cases h
    | cons c0 rest =>
      simp only [Option.some.injEq] at h
      rw [← h]

theorem ts_getitem_ok (C V : Type) (F : TasksetFactories C V)
    (st : TasksetState C) (i : Nat) (t : List C)
    (ht : st.allConfigs[i]? = some t) (hne : t ≠ []) :
    ∃ env', ts_getitem F st i = some (env', { st with nextId := st.nextId + 1 }) ∧
      rebuildFromTuple F st.nextId t = some env' := by
  cases t with
  | nil => exact absurd rfl hne
  | cons c0 rest =>
    refine ⟨_, ?_, rfl⟩
    unfold ts_getitem
    rw [ht]

theorem ts_make_like_ok_elim (C V : Type) (F : TasksetFactories C V)
    (st : TasksetState C) (env : Nat × V) (r : (Nat × V) × TasksetState C)
    (h : ts_make_like F st env = Except.ok r) :
    ∃ idx, lookupId st.envToConfig env.1 = some idx ∧
      ts_getitem F st idx = some r := by
  unfold ts_make_like at h
  split at h
  · cases h
  · next idx hl =>
    split at h
    · cases h
    · next r' hg =>
      simp only [Except.ok.injEq] at h
      exact ⟨idx, hl, by rw [hg, h]⟩

theorem ts_make_like_eq_ok (C V : Type) (F : TasksetFactories C V)
    (st : TasksetState C) (env : Nat × V) (idx : Nat)
    (r : (Nat × V) × TasksetState C)
    (hl : lookupId st.envToConfig env.1 = some idx)
    (hg : ts_getitem F st idx = some r) :
    ts_make_like F st env = Except.ok r := by
  unfold ts_make_like
  split
  · next h => rw [hl] at h; cases h
  · next idx2 h =>
    rw [hl] at h
    cases h
    split
    · next h2 => rw [hg] at h2; cases h2
    · next r2 h2 =>
      rw [hg] at h2
      cases h2
      rfl

theorem ts_make_like_eq_error (C V : Type) (F : TasksetFactories C V)
    (st : TasksetState C) (env : Nat × V)
    (hl : lookupId st.envToConfig env.1 = none) :
    ts_make_like F st env = Except.error notFoundMsg := by
  unfold ts_make_like
  split
  · rfl
  · next idx h => rw [hl] at h; cases h

theorem foldl_wrap_fst (C V : Type) (l : List (C × WrapperFactoryM C V)) :
    ∀ e : Nat × V,
      (l.foldl (fun (e : Nat × V) (p : C × WrapperFactoryM C V) =>
        (e.1, p.2.wrapF e p.1)) e).1 = e.1 := by
  induction l with
  | nil => intro e; rfl
  | cons p l ih => intro e; exact ih (e.1, p.2.wrapF e p.1)

theorem rebuildFromTuple_fst (C V : Type) (F : TasksetFactories C V)
    (fid : Nat) (t : List C) (env' : Nat × V)
    (h : rebuildFromTuple F fid t = some env') : env'.1 = fid := by
  cases t with
  | nil => cases h
  | cons c0 rest =>
    simp only [rebuildFromTuple, Option.some.injEq] at h
    rw [← h]
    exact foldl_wrap_fst C V (rest.zip F.wrappers) (fid, F.envMake c0)

theorem mem_exists_getElem {α : Type} (l : List α) (a : α) (h : a ∈ l) :
    ∃ n : Nat, l[n]? = some a := by
  obtain ⟨n, hn⟩ := List.get_of_mem h
  refine ⟨n.1, ?_⟩
  rw [List.getElem?_eq_getElem n.2, ← hn]
  rfl

theorem tsInv_init (C V : Type) :
    TsInv (initTaskset : TasksetState C) ([] : List (Nat × V)) := by
  refine ⟨rfl, ?_, ?_, ?_, ?_⟩
  · intro k e he; simp at he
  · intro p hp; simp [initTaskset] at hp
  · intro t ht; simp [initTaskset] at ht
  · intro n; simp [initTaskset, lookupId]

theorem tsInv_bump (C V : Type) (st : TasksetState C) (envs : List (Nat × V))
    (h : TsInv st envs) : TsInv { st with nextId := st.nextId + 1 } envs := by
  obtain ⟨h1, h2, h3, h4, h5⟩ := h
  refine ⟨h1, ?_, ?_, h4, h5⟩
  · intro k e hk
    obtain ⟨ha, hb⟩ := h2 k e hk
    exact ⟨ha, Nat.lt_succ_of_lt hb⟩
  · intro p hp
    obtain ⟨ha, hb⟩ := h3 p hp
    exact ⟨ha, Nat.lt_succ_of_lt hb⟩

theorem ts_sample_inv (C V : Type) (F : TasksetFactories C V)
    (st : TasksetState C) (envs : List (Nat × V)) (h : TsInv st envs) :
    TsInv (ts_sample F st).1 (envs ++ [(ts_sample F st).2]) := by
  obtain ⟨h1, h2, h3, h4, h5⟩ := h
  have hfst : (ts_sample F st).2.1 = st.nextId :=
    applyWrappers_fst C V F.wrappers _
  have hmap : (ts_sample F st).1.envToConfig =
      setId st.envToConfig (ts_sample F st).2.1 st.allConfigs.length := rfl
  have hcfgs : (ts_sample F st).1.allConfigs =
      st.allConfigs ++ [F.envSample st.allConfigs.length ::
        (applyWrappers F.wrappers
          (st.nextId, F.envMake (F.envSample st.allConfigs.length))).2] := rfl
  have hnid : (ts_sample F st).1.nextId = st.nextId + 1 := rfl
  refine ⟨?_, ?_, ?_, ?_, ?_⟩
  · rw [hcfgs]; simp [h1]
  · intro k ev hk
    rcases Nat.lt_trichotomy k envs.length with hlt | heq | hgt
    · rw [List.getElem?_append_left hlt] at hk
      obtain ⟨ha, hb⟩ := h2 k ev hk
      refine ⟨?_, by rw [hnid]; omega⟩
      rw [hmap, lookupId_setId_ne]
      · exact ha
      · rw [hfst]; omega
    · subst heq
      rw [List.getElem?_concat_length] at hk
      cases hk
      refine ⟨?_, by rw [hnid, hfst]; omega⟩
      rw [hmap, lookupId_setId_self, h1]
    · exfalso
      have hnone : (envs ++ [(ts_sample F st).2])[k]? = none :=
        List.getElem?_eq_none_iff.mpr (by simp; omega)
      rw [hnone] at hk
      cases hk
  · intro p hp
    rw [hmap] at hp
    rcases setId_mem _ _ _ p hp with h6 | h7
    · constructor
      · rw [h6, hcfgs]; simp
      · rw [h6, hnid, hfst]; simp
    · obtain ⟨pa, pb⟩ := h3 p h7
      constructor
      · rw [hcfgs]; simp; omega
      · rw [hnid]; omega
  · intro t ht
    rw [hcfgs] at ht
    rcases List.mem_append.mp ht with h6 | h7
    · exact h4 t h6
    · simp only [List.mem_singleton] at h7
      rw [h7]
      simp
  · intro n
    rw [hmap]
    by_cases hn : n = (ts_sample F st).2.1
    · subst hn
      simp only [lookupId_setId_self, List.map_append, List.mem_append]
      constructor
      · intro _; right; simp
      · intro _; exact ⟨st.allConfigs.length, rfl⟩
    · rw [lookupId_setId_ne _ _ _ _ hn]
      rw [List.map_append, List.mem_append]
      constructor
      · intro hx; exact Or.inl ((h5 n).mp hx)
      · intro hx
        rcases hx with hx | hx
        · exact (h5 n).mpr hx
        · simp at hx; exact absurd hx hn

theorem runOps_inv (C V : Type) (F : TasksetFactories C V) :
    ∀ (ops : List (TsOp C V)) (st : TasksetState C) (acc : List (Nat × V)),
      TsInv st acc → TsInv (runOps F st acc ops).1 (runOps F st acc ops).2 := by
  intro ops
  induction ops with
  | nil => intro st acc h; exact h
  | cons op rest ih =>
    intro st acc h
    cases op with
    | sampleOp => exact ih _ _ (ts_sample_inv C V F st acc h)
    | makeLikeOp env =>
      simp only [runOps]
      split
      · next r hml =>
        obtain ⟨idx, hl, hg⟩ := ts_make_like_ok_elim C V F st env r hml
        have hst := ts_getitem_state C V F st idx r hg
        exact ih r.2 acc (by rw [hst]; exact tsInv_bump C V st acc h)
      · exact ih st acc h
    | getItemOp i =>
      simp only [runOps]
      split
      · next r hg =>
        have hst := ts_getitem_state C V F st i r hg
        exact ih r.2 acc (by rw [hst]; exact tsInv_bump C V st acc h)
      · exact ih st acc h

theorem runOps_len (C V : Type) (F : TasksetFactories C V) :
    ∀ (ops : List (TsOp C V)) (st : TasksetState C) (acc : List (Nat × V)),
      (runOps F st acc ops).1.allConfigs.length =
        st.allConfigs.length + countSamples ops := by
  intro ops
  induction ops with
  | nil => intro st acc; simp [runOps, countSamples]
  | cons op rest ih =>
    intro st acc
    cases op with
    | sampleOp =>
      show (runOps F (ts_sample F st).1 (acc ++ [(ts_sample F st).2])
        rest).1.allConfigs.length = _
      rw [ih]
      have hlen : (ts_sample F st).1.allConfigs.length =
          st.allConfigs.length + 1 := by
        show (st.allConfigs ++ [_]).length = _
        simp
      rw [hlen, countSamples]
      omega
    | makeLikeOp env =>
      simp only [runOps]
      split
      · next r hml =>
        rw [ih]
        obtain ⟨idx, hl, hg⟩ := ts_make_like_ok_elim C V F st env r hml
        have hst := ts_getitem_state C V F st idx r hg
        rw [hst]
        rfl
      · rw [ih]; rfl
    | getItemOp i =>
      simp only [runOps]
      split
      · next r hg =>
        rw [ih]
        have hst := ts_getitem_state C V F st i r hg
        rw [hst]
        rfl
      · rw [ih]; rfl

/-- C4: every `sample()` appends exactly one configuration tuple to the
history, of length `1 + number of wrapper factories`, with the env config
at position 0 and wrapper factory `i−1`'s sampled config at every
position `i ≥ 1` (the `chainedConfigs` pairing); `make_like` and indexed
access leave the history unchanged; and `len(registry)` always equals
the number of `sample()` calls made. -/
theorem claim_C4 (C V : Type) :
    (∀ (F : TasksetFactories C V) (st : TasksetState C),
      (ts_sample F st).1.allConfigs =
        st.allConfigs ++ [F.envSample st.allConfigs.length ::
          chainedConfigs F.wrappers
            (st.nextId, F.envMake (F.envSample st.allConfigs.length))] ∧
      (F.envSample st.allConfigs.length ::
        chainedConfigs F.wrappers
          (st.nextId, F.envMake (F.envSample st.allConfigs.length))).length =
        1 + F.wrappers.length) ∧
    (∀ (F : TasksetFactories C V) (st : TasksetState C) (i : Nat)
        (r : (Nat × V) × TasksetState C), ts_getitem F st i = some r →
      r.2.allConfigs = st.allConfigs ∧ r.2.envToConfig = st.envToConfig) ∧
    (∀ (F : TasksetFactories C V) (st : TasksetState C) (env : Nat × V)
        (r : (Nat × V) × TasksetState C), ts_make_like F st env = Except.ok r →
      r.2.allConfigs = st.allConfigs ∧ r.2.envToConfig = st.envToConfig) ∧
    (∀ (F : TasksetFactories C V) (ops : List (TsOp C V)),
      ts_len (runState F ops) = countSamples ops) := by
  refine ⟨?_, ?_, ?_, ?_⟩
  · intro F st
    constructor
    · show st.allConfigs ++ [F.envSample st.allConfigs.length ::
        (applyWrappers F.wrappers
          (st.nextId, F.envMake (F.envSample st.allConfigs.length))).2] = _
      rw [applyWrappers_snd]
    · simp [chainedConfigs_length, Nat.add_comm]
  · intro F st i r h
    rw [ts_getitem_state C V F st i r h]
    exact ⟨rfl, rfl⟩
  · intro F st env r h
    obtain ⟨idx, hl, hg⟩ := ts_make_like_ok_elim C V F st env r h
    rw [ts_getitem_state C V F st idx r hg]
    exact ⟨rfl, rfl⟩
  · intro F ops
    show (runOps F initTaskset [] ops).1.allConfigs.length = _
    rw [runOps_len]
    simp [initTaskset]

/-- Witness for C4 on the concrete `Nat` registry: one sampled task, a
successful `__getitem__(0)` and `make_like`, both leaving the history
unchanged, and the length bookkeeping over a concrete operation list. -/
theorem claim_C4_witness :
    ts_getitem natFactories natState1 0 = some natGetItem0 ∧
    ts_make_like natFactories natState1 ((0 : Nat), (1 : Nat)) =
      Except.ok natGetItem0 ∧
    (natGetItem0.2.allConfigs = natState1.allConfigs ∧
      natGetItem0.2.envToConfig = natState1.envToConfig) ∧
    ts_len (runState natFactories [TsOp.sampleOp, TsOp.getItemOp 0]) =
      countSamples ([TsOp.sampleOp, TsOp.getItemOp 0] : List (TsOp Nat Nat)) := by
  refine ⟨by decide, by rfl, ?_, ?_⟩
  · exact (claim_C4 Nat Nat).2.1 natFactories natState1 0 natGetItem0 (by decide)
  · exact (claim_C4 Nat Nat).2.2.2 natFactories [TsOp.sampleOp, TsOp.getItemOp 0]

/-- C5: after any sequence of registry operations, `make_like(env)`
fails with the "configuration not found" error exactly when `env`'s base
identity was never recorded by `sample()`; on a hit (in particular on
every environment that `sample()` returned) it returns a fresh
environment — its base identity differs from every sampled one, and in
particular from `env`'s — rebuilt from exactly the configuration tuple
recorded at sampling time by re-applying the wrapper factories in
order. -/
theorem claim_C5 (C V : Type) (F : TasksetFactories C V) (ops : List (TsOp C V)) :
    (∀ env : Nat × V,
      (ts_make_like F (runState F ops) env = Except.error notFoundMsg ↔
        lookupId (runState F ops).envToConfig env.1 = none)) ∧
    (∀ env : Nat × V,
      (lookupId (runState F ops).envToConfig env.1 = none ↔
        env.1 ∉ (runEnvs F ops).map Prod.fst)) ∧
    (∀ (k : Nat) (env : Nat × V), (runEnvs F ops)[k]? = some env →
      ∃ (t : List C) (env' : Nat × V),
        (runState F ops).allConfigs[k]? = some t ∧
        ts_make_like F (runState F ops) env = Except.ok
          (env', { runState F ops with
            nextId := (runState F ops).nextId + 1 }) ∧
        rebuildFromTuple F (runState F ops).nextId t = some env' ∧
        env'.1 ∉ (runEnvs F ops).map Prod.fst ∧
        env'.1 ≠ env.1) := by
  have hInv : TsInv (runState F ops) (runEnvs F ops) :=
    runOps_inv C V F ops initTaskset [] (tsInv_init C V)
  obtain ⟨h1, h2, h3, h4, h5⟩ := hInv
  refine ⟨?_, ?_, ?_⟩
  · intro env
    constructor
    · intro herr
      cases hl : lookupId (runState F ops).envToConfig env.1 with
      | none => rfl
      | some idx =>
        exfalso
        have hmem := lookupId_mem _ _ _ hl
        obtain ⟨hidx, _⟩ := h3 (env.1, idx) hmem
        have ht : (runState F ops).allConfigs[idx]? =
            some ((runState F ops).allConfigs[idx]) :=
          List.getElem?_eq_getElem hidx
        have hne : (runState F ops).allConfigs[idx] ≠ [] :=
          h4 _ (List.getElem?_mem ht)
        obtain ⟨env', hgi, _⟩ :=
          ts_getitem_ok C V F (runState F ops) idx _ ht hne
        rw [ts_make_like_eq_ok C V F (runState F ops) env idx _ hl hgi] at herr
        cases herr
    · intro hnone
      exact ts_make_like_eq_error C V F (runState F ops) env hnone
  · intro env
    constructor
    · intro hnone hmem
      obtain ⟨i, hi⟩ := (h5 env.1).mpr hmem
      rw [hnone] at hi
      cases hi
    · intro hnmem
      cases hl : lookupId (runState F ops).envToConfig env.1 with
      | none => rfl
      | some i => exact absurd ((h5 env.1).mp ⟨i, hl⟩) hnmem
  · intro k env hk
    obtain ⟨hlook, hlt⟩ := h2 k env hk
    obtain ⟨hklt, _⟩ := List.getElem?_eq_some.mp hk
    have hkcfg : k < (runState F ops).allConfigs.length := by
      rw [← h1]; exact hklt
    have ht : (runState F ops).allConfigs[k]? =
        some ((runState F ops).allConfigs[k]) :=
      List.getElem?_eq_getElem hkcfg
    have hne : (runState F ops).allConfigs[k] ≠ [] :=
      h4 _ (List.getElem?_mem ht)
    obtain ⟨env', hgi, hrb⟩ :=
      ts_getitem_ok C V F (runState F ops) k _ ht hne
    have hfst := rebuildFromTuple_fst C V F _ _ env' hrb
    refine ⟨_, env', ht, ?_, hrb, ?_, ?_⟩
    · exact ts_make_like_eq_ok C V F (runState F ops) env k _ hlook hgi
    · intro hmem
      obtain ⟨e2, he2, hfe⟩ := List.mem_map.mp hmem
      obtain ⟨n, hn⟩ := mem_exists_getElem _ _ he2
      obtain ⟨_, hb⟩ := h2 n e2 hn
      rw [hfe, hfst] at hb
      exact absurd hb (lt_irrefl _)
    · rw [hfst]
      omega

/-- Witness for C5 on the concrete `Nat` registry: the environment
returned by the single `sample()` is found again by `make_like`, which
rebuilds a fresh copy from the recorded tuple. -/
theorem claim_C5_witness :
    (runEnvs natFactories [TsOp.sampleOp])[0]? = some ((0 : Nat), (1 : Nat)) ∧
    (∃ (t : List Nat) (env' : Nat × Nat),
      (runState natFactories [TsOp.sampleOp]).allConfigs[0]? = some t ∧
      ts_make_like natFactories (runState natFactories [TsOp.sampleOp])
          ((0 : Nat), (1 : Nat)) = Except.ok
        (env', { runState natFactories [TsOp.sampleOp] with
          nextId := (runState natFactories [TsOp.sampleOp]).nextId + 1 }) ∧
      rebuildFromTuple natFactories
        (runState natFactories [TsOp.sampleOp]).nextId t = some env' ∧
      env'.1 ∉ (runEnvs natFactories [TsOp.sampleOp]).map Prod.fst ∧
      env'.1 ≠ ((0 : Nat), (1 : Nat)).1) := by
  have h : (runEnvs natFactories [TsOp.sampleOp])[0]? =
      some ((0 : Nat), (1 : Nat)) := by decide
  exact ⟨h, (claim_C5 Nat Nat natFactories [TsOp.sampleOp]).2.2 0
    ((0 : Nat), (1 : Nat)) h⟩

end Metaschool
